import Mathlib

/-!
Shallow embedding of the gameplay core of the AR finger-snake game
(`src/components/SnakeCanvas.tsx` and `src/unnamed/part_000`).

Coordinates are modelled as rationals (the source works with JS numbers in
canvas pixel space).  The source compares Euclidean distances
`Math.sqrt(dx*dx + dy*dy)` against non-negative thresholds; the embedding
tracks the squared distance and compares it against the squared threshold,
which is equivalent because both sides are non-negative (the link to the
real square root is proved where a claim mentions Euclidean distance).
-/

namespace ARSnake

/-- `Point` from `src/unnamed/part_000`: a 2-D coordinate in canvas pixel
space. -/
structure Point where
  x : ℚ
  y : ℚ
deriving DecidableEq, Repr

/-- `Food` from `src/unnamed/part_000`: a target position plus a colour. -/
structure Food where
  x : ℚ
  y : ℚ
  color : String
deriving DecidableEq, Repr

/-- `GameState` enum from `src/unnamed/part_000`. -/
inductive GameState where
  | loadingModel
  | menu
  | playing
  | gameOver
deriving DecidableEq, Repr

/-! Constants from `SnakeCanvas.tsx`, lines 12-20. -/

def FOOD_RADIUS : ℚ := 15

def SNAKE_RADIUS : ℚ := 12

def COLLISION_THRESHOLD : ℚ := 30

def INITIAL_SNAKE_LENGTH : Nat := 10

def MIN_SEGMENT_DISTANCE : ℚ := 8

def SEGMENT_GROWTH : Nat := 4

def SELF_COLLISION_GRACE_ZONES : Nat := 12

def COLORS : List String :=
  ["#ef4444", "#f59e0b", "#10b981", "#3b82f6", "#8b5cf6", "#ec4899"]

/-- Squared version of `getDistance` (SnakeCanvas.tsx lines 49-53).  The
source returns `Math.sqrt(dx*dx + dy*dy)`; we keep `dx*dx + dy*dy`. -/
def getDistanceSq (p1 p2 : Point) : ℚ :=
  (p1.x - p2.x) * (p1.x - p2.x) + (p1.y - p2.y) * (p1.y - p2.y)

/-- The position of a food item, as fed to `getDistance` (the source passes
the food object itself, reading its `x`/`y` fields). -/
def foodPoint (f : Food) : Point :=
  { x := f.x, y := f.y }

/-- `spawnFood` (SnakeCanvas.tsx lines 39-46) with the two `Math.random()`
draws (`rx`, `ry` in `[0,1)`) and the colour index made explicit inputs. -/
def spawnFood (width height rx ry : ℚ) (rc : Fin 6) : Food :=
  { x := rx * (width - 60 * 2) + 60,
    y := ry * (height - 60 * 2) + 60,
    color := COLORS.getD (rc : Nat) "#ef4444" }

/-- Food-collision test inlined at SnakeCanvas.tsx lines 257-258:
`getDistance(currentHead, food) < COLLISION_THRESHOLD`, in squared form. -/
def checkFoodCollision (p : Point) (f : Food) : Bool :=
  decide (getDistanceSq p (foodPoint f) < COLLISION_THRESHOLD * COLLISION_THRESHOLD)

/-- Self-collision test inlined at SnakeCanvas.tsx lines 237-247: when the
trail is longer than `SELF_COLLISION_GRACE_ZONES`, scan the nodes from index
`SELF_COLLISION_GRACE_ZONES` on and report whether some node lies within
`SNAKE_RADIUS` of the tip (the source breaks at the first hit; `List.any`
short-circuits the same way). -/
def checkSelfCollision (tip : Point) (trail : List Point) : Bool :=
  if SELF_COLLISION_GRACE_ZONES < trail.length then
    (trail.drop SELF_COLLISION_GRACE_ZONES).any
      (fun bodyPart => decide (getDistanceSq tip bodyPart < SNAKE_RADIUS * SNAKE_RADIUS))
  else
    false

/-- `targetLength` computed at SnakeCanvas.tsx line 225. -/
def targetLength (score : Nat) : Nat :=
  INITIAL_SNAKE_LENGTH + score * SEGMENT_GROWTH

/-- Step 2 of the tick, "Update Snake Position" (SnakeCanvas.tsx lines
205-233): insert the finger tip at the head when the trail is empty or the
tip moved strictly more than `MIN_SEGMENT_DISTANCE` from the head
(`dist > MIN_SEGMENT_DISTANCE`, squared here); after an insertion, if the
length exceeds `targetLength`, `pop()` removes the last node once. -/
def updateSnake (trail : List Point) (score : Nat) (tip : Point) : List Point :=
  let shouldAddPoint :=
    match trail with
    | [] => true
    | head :: _ =>
        decide (MIN_SEGMENT_DISTANCE * MIN_SEGMENT_DISTANCE < getDistanceSq tip head)
  if shouldAddPoint then
    let grown := tip :: trail
    if targetLength score < grown.length then grown.dropLast else grown
  else
    trail

/-- The mutable game refs of `SnakeCanvas` that the `animate` callback reads
and writes: `snakeBodyRef`, `foodRef`, `scoreRef`, `lastVideoTimeRef`, plus
the externally held `gameState`. -/
structure GameSt where
  phase : GameState
  snakeBody : List Point
  food : Option Food
  score : Nat
  lastVideoTime : ℚ
deriving DecidableEq, Repr

/-- Per-frame input to the `animate` callback: the video element's
`currentTime`, what the hand landmarker would report for a fresh frame
(already scaled to canvas pixels, `none` when no hand with enough landmarks
is detected), and the food that `spawnFood` would produce if one is eaten
this tick. -/
structure TickInput where
  videoTime : ℚ
  detection : Option Point
  freshFood : Food
deriving DecidableEq, Repr

/-- The finger tip used by a tick (SnakeCanvas.tsx lines 186-202):
`fingerTip` starts as `null` and is assigned only when
`video.currentTime !== lastVideoTimeRef.current`; on an unchanged timestamp
detection is skipped and `fingerTip` stays `null`. -/
def tickTip (s : GameSt) (inp : TickInput) : Option Point :=
  if inp.videoTime ≠ s.lastVideoTime then inp.detection else none

/-- The value of `snakeBodyRef.current` after step 2 of the tick
(SnakeCanvas.tsx lines 204-233): `updateSnake` runs only when `fingerTip`
is non-null. -/
def tickBody (s : GameSt) (inp : TickInput) : List Point :=
  match tickTip s inp with
  | some tip => updateSnake s.snakeBody s.score tip
  | none => s.snakeBody

/-- The phase after the self-collision scan (SnakeCanvas.tsx lines
235-247): with a non-null `fingerTip`, the loop over the updated body
calls `setGameState(GAME_OVER)` exactly when some node at index ≥
`SELF_COLLISION_GRACE_ZONES` is within `SNAKE_RADIUS` of the tip. -/
def tickPhase (s : GameSt) (inp : TickInput) : GameState :=
  match tickTip s inp with
  | some tip =>
      if checkSelfCollision tip (tickBody s inp) then GameState.gameOver else s.phase
  | none => s.phase

/-- `currentHead = fingerTip || snakeBodyRef.current[0]` (SnakeCanvas.tsx
line 253), where `snakeBodyRef.current` is the body already updated in
step 2. -/
def tickHead (s : GameSt) (inp : TickInput) : Option Point :=
  match tickTip s inp with
  | some tip => some tip
  | none => (tickBody s inp).head?

/-- Whether the food-collision branch fires this tick (SnakeCanvas.tsx
lines 256-258): `currentHead` and a food both exist and the distance is
strictly below `COLLISION_THRESHOLD`. -/
def tickEats (s : GameSt) (inp : TickInput) : Bool :=
  match tickHead s inp, s.food with
  | some h, some f => checkFoodCollision h f
  | _, _ => false

/-- One run of the `animate` callback (SnakeCanvas.tsx lines 147-334),
game-logic portion, with the camera on.  Returns the new state together
with the list of `onScoreUpdate` calls made during the tick.

Faithful points: in the `GAME_OVER` phase the callback returns before any
game logic (line 176); `lastVideoTimeRef` is updated whenever the timestamp
changed (line 190); the self-collision scan runs on the already-updated
body and `setGameState(GAME_OVER)` does not return from the callback — the
food-collision block (lines 251-265) still executes, using
`fingerTip || snakeBodyRef.current[0]` as the head. -/
def animate (s : GameSt) (inp : TickInput) : GameSt × List Nat :=
  if s.phase = GameState.playing then
    let lastVT := if inp.videoTime ≠ s.lastVideoTime then inp.videoTime else s.lastVideoTime
    let base : GameSt :=
      { phase := tickPhase s inp, snakeBody := tickBody s inp, food := s.food,
        score := s.score, lastVideoTime := lastVT }
    if tickEats s inp then
      ({ base with food := some inp.freshFood, score := s.score + 1 }, [s.score + 1])
    else
      (base, [])
  else
    (s, [])

/-- `restartGame` (SnakeCanvas.tsx lines 107-112): clear the body, zero the
score, report it, enter `PLAYING`.  `foodRef` and `lastVideoTimeRef` are
not touched. -/
def restartGame (s : GameSt) : GameSt × List Nat :=
  ({ s with snakeBody := [], score := 0, phase := GameState.playing }, [0])

/-- The state-reset portion of `startCamera` (SnakeCanvas.tsx lines
129-139), on successful camera start: clear the body, zero the score,
report it, spawn a fresh food, enter `PLAYING`.  `newFood` stands for the
`spawnFood(canvas.width, canvas.height)` result. -/
def startCameraReset (s : GameSt) (newFood : Food) : GameSt × List Nat :=
  ({ s with
      snakeBody := [], score := 0, food := some newFood,
      phase := GameState.playing }, [0])

/-- Iterate `animate` over a list of per-frame inputs. -/
def runTicks (s : GameSt) : List TickInput → GameSt
  | [] => s
  | inp :: rest => runTicks (animate s inp).1 rest

/-! ### General lemmas about a single tick -/

lemma animate_fst (s : GameSt) (inp : TickInput) (hs : s.phase = GameState.playing) :
    (animate s inp).1 =
      { phase := tickPhase s inp, snakeBody := tickBody s inp,
        food := if tickEats s inp then some inp.freshFood else s.food,
        score := if tickEats s inp then s.score + 1 else s.score,
        lastVideoTime :=
          if inp.videoTime ≠ s.lastVideoTime then inp.videoTime else s.lastVideoTime } := by
  simp only [animate, hs, if_true, reduceIte]
  by_cases he : tickEats s inp <;> simp [he]

lemma animate_snd (s : GameSt) (inp : TickInput) (hs : s.phase = GameState.playing) :
    (animate s inp).2 = if tickEats s inp then [s.score + 1] else [] := by
  simp only [animate, hs, if_true, reduceIte]
  by_cases he : tickEats s inp <;> simp [he]

lemma animate_not_playing (s : GameSt) (inp : TickInput)
    (hs : s.phase ≠ GameState.playing) : animate s inp = (s, []) := by
  simp [animate, hs]

lemma updateSnake_length (trail : List Point) (score : Nat) (tip : Point) :
    (updateSnake trail score tip).length = trail.length ∨
      (updateSnake trail score tip).length = trail.length + 1 := by
  simp only [updateSnake]
  split
  · split
    · left
      simp
    · right
      simp
  · left
    rfl

lemma updateSnake_le_target (trail : List Point) (score : Nat) (tip : Point)
    (h : trail.length ≤ targetLength score) :
    (updateSnake trail score tip).length ≤ targetLength score := by
  simp only [updateSnake]
  split
  · split
    · simpa using h
    · rename_i hle
      simp only [List.length_cons] at hle ⊢
      omega
  · exact h

lemma tickBody_le_target (s : GameSt) (inp : TickInput)
    (h : s.snakeBody.length ≤ targetLength s.score) :
    (tickBody s inp).length ≤ targetLength s.score := by
  unfold tickBody
  cases tickTip s inp with
  | none => exact h
  | some tip => exact updateSnake_le_target _ _ _ h

lemma lengthInv_step (s : GameSt) (inp : TickInput)
    (h : s.snakeBody.length ≤ targetLength s.score) :
    (animate s inp).1.snakeBody.length ≤ targetLength (animate s inp).1.score := by
  by_cases hs : s.phase = GameState.playing
  · rw [animate_fst s inp hs]
    have hb := tickBody_le_target s inp h
    have hmono : targetLength s.score ≤
        targetLength (if tickEats s inp then s.score + 1 else s.score) := by
      unfold targetLength SEGMENT_GROWTH INITIAL_SNAKE_LENGTH
      split <;> omega
    exact le_trans hb hmono
  · rw [animate_not_playing s inp hs]
    exact h

lemma lengthInv_run (s : GameSt) (inps : List TickInput)
    (h : s.snakeBody.length ≤ targetLength s.score) :
    (runTicks s inps).snakeBody.length ≤ targetLength (runTicks s inps).score := by
  induction inps generalizing s with
  | nil => exact h
  | cons i rest ih => exact ih _ (lengthInv_step s i h)

/-! ### Claim theorems -/

/-- C1: starting from a reset state (empty trail, score 0), after every
sequence of ticks the trail length is at most
`INITIAL_SNAKE_LENGTH + score * SEGMENT_GROWTH` for the then-current
score. -/
theorem trail_length_bound (s0 : GameSt) (hbody : s0.snakeBody = [])
    (hscore : s0.score = 0) (inps : List TickInput) :
    (runTicks s0 inps).snakeBody.length ≤
      INITIAL_SNAKE_LENGTH + (runTicks s0 inps).score * SEGMENT_GROWTH := by
  have h0 : s0.snakeBody.length ≤ targetLength s0.score := by
    simp [hbody, hscore, targetLength]
  simpa [targetLength] using lengthInv_run s0 inps h0

/-- C10: in any single tick the trail length changes by exactly 0 or +1
(one insertion at most, one tail removal at most and only right after an
insertion), so the trail never shrinks between resets. -/
theorem tick_length_change (s : GameSt) (inp : TickInput) :
    (animate s inp).1.snakeBody.length = s.snakeBody.length ∨
      (animate s inp).1.snakeBody.length = s.snakeBody.length + 1 := by
  by_cases hs : s.phase = GameState.playing
  · rw [animate_fst s inp hs]
    show (tickBody s inp).length = _ ∨ (tickBody s inp).length = _
    unfold tickBody
    cases tickTip s inp with
    | none => left; rfl
    | some tip => exact updateSnake_length _ _ _
  · rw [animate_not_playing s inp hs]
    left
    rfl

/-- C6: whenever the (already updated) trail has length at most
`SELF_COLLISION_GRACE_ZONES`, the self-collision check is false for every
live tracked point — even one coinciding with a trail node — and the tick
does not transition to `GameOver`. -/
theorem self_collision_grace (s : GameSt) (inp : TickInput) (tip : Point)
    (hs : s.phase = GameState.playing) (ht : tickTip s inp = some tip)
    (hlen : (tickBody s inp).length ≤ SELF_COLLISION_GRACE_ZONES) :
    checkSelfCollision tip (tickBody s inp) = false ∧
      (animate s inp).1.phase = GameState.playing := by
  have hfalse : checkSelfCollision tip (tickBody s inp) = false := by
    unfold checkSelfCollision
    rw [if_neg (by omega)]
  refine ⟨hfalse, ?_⟩
  rw [animate_fst s inp hs]
  show tickPhase s inp = GameState.playing
  simp [tickPhase, ht, hfalse, hs]

/-- Concrete state for the C6 witness: a 3-node trail whose middle node
coincides exactly with the incoming tip. -/
def c6S : GameSt :=
  { phase := GameState.playing, snakeBody := [⟨0, 0⟩, ⟨3, 0⟩, ⟨6, 0⟩],
    food := none, score := 0, lastVideoTime := 0 }

def c6Inp : TickInput :=
  { videoTime := 1, detection := some ⟨3, 0⟩, freshFood := ⟨500, 500, "#ef4444"⟩ }

theorem self_collision_grace_witness :
    checkSelfCollision ⟨3, 0⟩ (tickBody c6S c6Inp) = false ∧
      (animate c6S c6Inp).1.phase = GameState.playing :=
  self_collision_grace c6S c6Inp ⟨3, 0⟩ rfl
    (by norm_num [tickTip, c6S, c6Inp])
    (by norm_num [tickBody, tickTip, updateSnake, getDistanceSq,
      MIN_SEGMENT_DISTANCE, SELF_COLLISION_GRACE_ZONES, c6S, c6Inp])

/-- C7: a tick whose live tracked point is within `MIN_SEGMENT_DISTANCE`
of the current head (distance 0 included) inserts no node and leaves the
trail content unchanged; since the state is unchanged, repeated such ticks
do the same. -/
theorem distance_gate_idempotent (s : GameSt) (inp : TickInput) (tip h : Point)
    (rest : List Point) (hs : s.phase = GameState.playing)
    (hb : s.snakeBody = h :: rest) (ht : tickTip s inp = some tip)
    (hd : getDistanceSq tip h ≤ MIN_SEGMENT_DISTANCE * MIN_SEGMENT_DISTANCE) :
    (animate s inp).1.snakeBody = s.snakeBody := by
  rw [animate_fst s inp hs]
  show tickBody s inp = s.snakeBody
  have hgate : ¬ (MIN_SEGMENT_DISTANCE * MIN_SEGMENT_DISTANCE < getDistanceSq tip h) :=
    not_lt.mpr hd
  simp [tickBody, ht, hb, updateSnake, hgate]

/-- Concrete state for the C7 witness: a one-node trail and a tip at
distance exactly `MIN_SEGMENT_DISTANCE` from the head. -/
def c7S : GameSt :=
  { phase := GameState.playing, snakeBody := [⟨0, 0⟩],
    food := none, score := 0, lastVideoTime := 0 }

def c7Inp : TickInput :=
  { videoTime := 1, detection := some ⟨8, 0⟩, freshFood := ⟨500, 500, "#ef4444"⟩ }

theorem distance_gate_idempotent_witness :
    (animate c7S c7Inp).1.snakeBody = c7S.snakeBody :=
  distance_gate_idempotent c7S c7Inp ⟨8, 0⟩ ⟨0, 0⟩ [] rfl rfl
    (by norm_num [tickTip, c7S, c7Inp])
    (by norm_num [getDistanceSq, MIN_SEGMENT_DISTANCE])

/-- C8: the food-collision test is true exactly when the Euclidean
distance between the point and the food is strictly below
`COLLISION_THRESHOLD`; in particular distance exactly equal to the
threshold gives false. -/
theorem food_collision_strict (p : Point) (f : Food) :
    checkFoodCollision p f = true ↔
      Real.sqrt ((getDistanceSq p (foodPoint f) : ℝ)) <
        ((COLLISION_THRESHOLD : ℚ) : ℝ) := by
  have hpos : (0 : ℝ) < ((COLLISION_THRESHOLD : ℚ) : ℝ) := by
    norm_num [COLLISION_THRESHOLD]
  rw [checkFoodCollision, decide_eq_true_eq, Real.sqrt_lt' hpos]
  rw [show ((COLLISION_THRESHOLD : ℚ) : ℝ) ^ 2 =
      ((COLLISION_THRESHOLD * COLLISION_THRESHOLD : ℚ) : ℝ) by push_cast; ring]
  exact ⟨fun hlt => by exact_mod_cast hlt, fun hlt => by exact_mod_cast hlt⟩

/-- Concrete reset state and first input for the C1 witness. -/
def c1S : GameSt :=
  { phase := GameState.playing, snakeBody := [], food := none, score := 0,
    lastVideoTime := 0 }

def c1Inp : TickInput :=
  { videoTime := 1, detection := some ⟨100, 100⟩, freshFood := ⟨500, 500, "#ef4444"⟩ }

theorem trail_length_bound_witness :
    (runTicks c1S [c1Inp]).snakeBody.length ≤
      INITIAL_SNAKE_LENGTH + (runTicks c1S [c1Inp]).score * SEGMENT_GROWTH :=
  trail_length_bound c1S rfl rfl [c1Inp]

/-- A 15-node trail used by the C2 scenario: score 0 gives
`targetLength = 10`, already exceeded. -/
def c2Trail : List Point :=
  [⟨0, 0⟩, ⟨20, 0⟩, ⟨40, 0⟩, ⟨60, 0⟩, ⟨80, 0⟩, ⟨100, 0⟩, ⟨120, 0⟩, ⟨140, 0⟩,
   ⟨160, 0⟩, ⟨180, 0⟩, ⟨200, 0⟩, ⟨220, 0⟩, ⟨240, 0⟩, ⟨260, 0⟩, ⟨280, 0⟩]

def c2St : GameSt :=
  { phase := GameState.playing, snakeBody := c2Trail, food := none, score := 0,
    lastVideoTime := 0 }

def c2Inp : TickInput :=
  { videoTime := 1, detection := some ⟨-100, 0⟩, freshFood := ⟨500, 500, "#ef4444"⟩ }

/-- C2 counterexample: from a 15-node trail with `targetLength = 10`, a
tick whose live tracked point is farther than `MIN_SEGMENT_DISTANCE` from
the head leaves the trail at length 15, not at most 10 — the code pops at
most one tail node per insertion instead of trimming in a loop. -/
theorem trim_to_target_counterexample :
    tickTip c2St c2Inp = some ⟨-100, 0⟩ ∧
    MIN_SEGMENT_DISTANCE * MIN_SEGMENT_DISTANCE < getDistanceSq ⟨-100, 0⟩ ⟨0, 0⟩ ∧
    targetLength (animate c2St c2Inp).1.score = 10 ∧
    (animate c2St c2Inp).1.snakeBody.length = 15 := by
  norm_num [animate, tickTip, tickBody, tickPhase, tickHead, tickEats, updateSnake,
    checkSelfCollision, checkFoodCollision, getDistanceSq, foodPoint, targetLength,
    INITIAL_SNAKE_LENGTH, SEGMENT_GROWTH, MIN_SEGMENT_DISTANCE, SNAKE_RADIUS,
    SELF_COLLISION_GRACE_ZONES, COLLISION_THRESHOLD, c2St, c2Inp, c2Trail]

/-- C2 amended: after an insertion the code removes at most one tail node
(single `pop`, not a loop), so a tick that inserts into a trail whose
length is already at least `targetLength` leaves the length unchanged. -/
theorem trim_once_when_over_target (s : GameSt) (inp : TickInput) (tip h : Point)
    (rest : List Point) (hs : s.phase = GameState.playing)
    (hb : s.snakeBody = h :: rest) (ht : tickTip s inp = some tip)
    (hfar : MIN_SEGMENT_DISTANCE * MIN_SEGMENT_DISTANCE < getDistanceSq tip h)
    (hlen : targetLength s.score ≤ s.snakeBody.length) :
    (animate s inp).1.snakeBody.length = s.snakeBody.length := by
  rw [animate_fst s inp hs]
  show (tickBody s inp).length = s.snakeBody.length
  rw [hb] at hlen
  simp only [List.length_cons] at hlen
  have hadd : decide (MIN_SEGMENT_DISTANCE * MIN_SEGMENT_DISTANCE <
      getDistanceSq tip h) = true := decide_eq_true hfar
  simp only [tickBody, ht, hb, updateSnake, hadd, if_true]
  rw [if_pos (by simp only [List.length_cons]; omega)]
  simp

theorem trim_once_when_over_target_witness :
    (animate c2St c2Inp).1.snakeBody.length = c2St.snakeBody.length :=
  trim_once_when_over_target c2St c2Inp ⟨-100, 0⟩ ⟨0, 0⟩ (c2Trail.drop 1) rfl
    (by norm_num [c2St, c2Trail])
    (by norm_num [tickTip, c2St, c2Inp])
    (by norm_num [getDistanceSq, MIN_SEGMENT_DISTANCE])
    (by norm_num [targetLength, INITIAL_SNAKE_LENGTH, SEGMENT_GROWTH, c2St, c2Trail])

/-- State for the C3 scenario: no hand detected this frame, but the trail
head sits within `COLLISION_THRESHOLD` of the food. -/
def c3St : GameSt :=
  { phase := GameState.playing, snakeBody := [⟨200, 200⟩],
    food := some ⟨210, 205, "#f59e0b"⟩, score := 0, lastVideoTime := 1 }

def c3Inp : TickInput :=
  { videoTime := 2, detection := none, freshFood := ⟨600, 400, "#10b981"⟩ }

/-- C3 counterexample: with the live tracked point absent the tick is not
a no-op — `currentHead` falls back to `snakeBodyRef.current[0]`, the
food-collision check runs against it, the score increments, the score
observer fires and the food respawns. -/
theorem frozen_tick_counterexample :
    tickTip c3St c3Inp = none ∧
    (animate c3St c3Inp).1.score = c3St.score + 1 ∧
    (animate c3St c3Inp).1.food = some c3Inp.freshFood ∧
    (animate c3St c3Inp).2 = [1] := by
  norm_num [animate, tickTip, tickBody, tickPhase, tickHead, tickEats, updateSnake,
    checkSelfCollision, checkFoodCollision, getDistanceSq, foodPoint, targetLength,
    INITIAL_SNAKE_LENGTH, SEGMENT_GROWTH, MIN_SEGMENT_DISTANCE, SNAKE_RADIUS,
    SELF_COLLISION_GRACE_ZONES, COLLISION_THRESHOLD, c3St, c3Inp]

/-- C3 amended: an absent live tracked point freezes the trail and skips
the self-collision check, but the food-collision check still runs this
tick, using the current trail head as the test point; the score and food
change exactly when that head lies within `COLLISION_THRESHOLD` of the
food. -/
theorem frozen_tick_amended (s : GameSt) (inp : TickInput)
    (hs : s.phase = GameState.playing) (ht : tickTip s inp = none) :
    (animate s inp).1.snakeBody = s.snakeBody ∧
    (animate s inp).1.phase = s.phase ∧
    (animate s inp).1.score = (if tickEats s inp then s.score + 1 else s.score) ∧
    (animate s inp).1.food = (if tickEats s inp then some inp.freshFood else s.food) ∧
    (tickEats s inp = true ↔
      ∃ h f, s.snakeBody.head? = some h ∧ s.food = some f ∧
        checkFoodCollision h f = true) := by
  have hbody : tickBody s inp = s.snakeBody := by simp [tickBody, ht]
  have hphase : tickPhase s inp = s.phase := by simp [tickPhase, ht]
  have hhead : tickHead s inp = s.snakeBody.head? := by simp [tickHead, ht, hbody]
  rw [animate_fst s inp hs]
  refine ⟨hbody, hphase, rfl, rfl, ?_⟩
  unfold tickEats
  rw [hhead]
  cases hh : s.snakeBody.head? with
  | none => simp
  | some h =>
      cases hf : s.food with
      | none => simp
      | some f => simp

theorem frozen_tick_amended_witness :
    (animate c3St c3Inp).1.snakeBody = c3St.snakeBody ∧
    (animate c3St c3Inp).1.phase = c3St.phase ∧
    (animate c3St c3Inp).1.score =
      (if tickEats c3St c3Inp then c3St.score + 1 else c3St.score) ∧
    (animate c3St c3Inp).1.food =
      (if tickEats c3St c3Inp then some c3Inp.freshFood else c3St.food) ∧
    (tickEats c3St c3Inp = true ↔
      ∃ h f, c3St.snakeBody.head? = some h ∧ c3St.food = some f ∧
        checkFoodCollision h f = true) :=
  frozen_tick_amended c3St c3Inp rfl (by norm_num [tickTip, c3St, c3Inp])

/-- Trail for the C4 scenario: 13 nodes with the two oldest placed so the
incoming tip lands within `SNAKE_RADIUS` of a node past the grace zone. -/
def c4Trail : List Point :=
  [⟨0, 0⟩, ⟨30, 0⟩, ⟨60, 0⟩, ⟨90, 0⟩, ⟨120, 0⟩, ⟨150, 0⟩, ⟨180, 0⟩, ⟨210, 0⟩,
   ⟨240, 0⟩, ⟨270, 0⟩, ⟨300, 0⟩, ⟨400, 0⟩, ⟨430, 0⟩]

def c4St : GameSt :=
  { phase := GameState.playing, snakeBody := c4Trail,
    food := some ⟨410, 0, "#3b82f6"⟩, score := 1, lastVideoTime := 0 }

def c4Inp : TickInput :=
  { videoTime := 1, detection := some ⟨405, 0⟩, freshFood := ⟨600, 400, "#8b5cf6"⟩ }

/-- C4 counterexample: a tick that detects self-collision sets the phase
to `GameOver` but does not halt — the food-collision block still runs in
the same tick, incrementing the score, firing the observer and respawning
the food. -/
theorem self_collision_halt_counterexample :
    tickTip c4St c4Inp = some ⟨405, 0⟩ ∧
    checkSelfCollision ⟨405, 0⟩ (tickBody c4St c4Inp) = true ∧
    (animate c4St c4Inp).1.phase = GameState.gameOver ∧
    (animate c4St c4Inp).1.score = c4St.score + 1 ∧
    (animate c4St c4Inp).1.food = some c4Inp.freshFood ∧
    (animate c4St c4Inp).2 = [c4St.score + 1] := by
  norm_num [animate, tickTip, tickBody, tickPhase, tickHead, tickEats, updateSnake,
    checkSelfCollision, checkFoodCollision, getDistanceSq, foodPoint, targetLength,
    INITIAL_SNAKE_LENGTH, SEGMENT_GROWTH, MIN_SEGMENT_DISTANCE, SNAKE_RADIUS,
    SELF_COLLISION_GRACE_ZONES, COLLISION_THRESHOLD, c4St, c4Inp, c4Trail]

/-- C4 amended: when the live tracked point collides with the post-update
trail beyond the grace zone, the phase transitions to `GameOver`, but the
rest of the tick still executes: the food-collision check runs with the
live point, and the score increments and the food respawns exactly when
that point lies within `COLLISION_THRESHOLD` of the food. -/
theorem self_collision_sets_gameover (s : GameSt) (inp : TickInput) (tip : Point)
    (hs : s.phase = GameState.playing) (ht : tickTip s inp = some tip)
    (hc : checkSelfCollision tip (tickBody s inp) = true) :
    (animate s inp).1.phase = GameState.gameOver ∧
    (animate s inp).1.score = (if tickEats s inp then s.score + 1 else s.score) ∧
    (animate s inp).1.food = (if tickEats s inp then some inp.freshFood else s.food) ∧
    (tickEats s inp = true ↔ ∃ f, s.food = some f ∧ checkFoodCollision tip f = true) := by
  rw [animate_fst s inp hs]
  have hhead : tickHead s inp = some tip := by simp [tickHead, ht]
  refine ⟨?_, rfl, rfl, ?_⟩
  · show tickPhase s inp = GameState.gameOver
    simp [tickPhase, ht, hc]
  · unfold tickEats
    rw [hhead]
    cases hf : s.food with
    | none => simp
    | some f => simp

theorem self_collision_sets_gameover_witness :
    (animate c4St c4Inp).1.phase = GameState.gameOver ∧
    (animate c4St c4Inp).1.score =
      (if tickEats c4St c4Inp then c4St.score + 1 else c4St.score) ∧
    (animate c4St c4Inp).1.food =
      (if tickEats c4St c4Inp then some c4Inp.freshFood else c4St.food) ∧
    (tickEats c4St c4Inp = true ↔
      ∃ f, c4St.food = some f ∧ checkFoodCollision ⟨405, 0⟩ f = true) :=
  self_collision_sets_gameover c4St c4Inp ⟨405, 0⟩ rfl
    (by norm_num [tickTip, c4St, c4Inp])
    (by norm_num [tickBody, tickTip, updateSnake, checkSelfCollision, getDistanceSq,
      targetLength, INITIAL_SNAKE_LENGTH, SEGMENT_GROWTH, MIN_SEGMENT_DISTANCE,
      SNAKE_RADIUS, SELF_COLLISION_GRACE_ZONES, c4St, c4Inp, c4Trail])

/-- A `GameOver` state carrying a leftover food, for the C5 scenario. -/
def c5OldFood : Food := ⟨100, 100, "#ef4444"⟩

def c5NewFood : Food := ⟨200, 150, "#10b981"⟩

def c5St : GameSt :=
  { phase := GameState.gameOver, snakeBody := [⟨5, 5⟩, ⟨40, 5⟩],
    food := some c5OldFood, score := 3, lastVideoTime := 7 }

/-- C5 counterexample: `restartGame` keeps the previous food instead of
spawning a fresh one, so it is not the same reset path as the
`Menu → Playing` transition (`startCamera`), which does spawn. -/
theorem restart_full_reset_counterexample :
    (restartGame c5St).1.food = some c5OldFood ∧
    (restartGame c5St).1.food ≠ (startCameraReset c5St c5NewFood).1.food := by
  constructor
  · rfl
  · simp [restartGame, startCameraReset, c5St, c5OldFood, c5NewFood]

/-- C5 amended: the restart action clears the trail, resets the score to
0, reports it to the score observer and enters `Playing`, but unlike the
`Menu → Playing` path it does not spawn a fresh food: the previous food
(and the previous video timestamp) are kept. -/
theorem restart_resets_except_food (s : GameSt) :
    (restartGame s).1.snakeBody = [] ∧ (restartGame s).1.score = 0 ∧
    (restartGame s).2 = [0] ∧ (restartGame s).1.phase = GameState.playing ∧
    (restartGame s).1.food = s.food :=
  ⟨rfl, rfl, rfl, rfl, rfl⟩

/-- Two-tick C9 scenario: tick 1 runs detection on a fresh frame and gets
`c9P`; tick 2 reuses the same frame timestamp. -/
def c9P : Point := ⟨8, 0⟩

def c9Food1 : Food := ⟨30, 0, "#ef4444"⟩

def c9Food2 : Food := ⟨35, 0, "#f59e0b"⟩

def c9S0 : GameSt :=
  { phase := GameState.playing, snakeBody := [⟨0, 0⟩], food := some c9Food1,
    score := 0, lastVideoTime := 0 }

def c9Inp1 : TickInput :=
  { videoTime := 1, detection := some c9P, freshFood := c9Food2 }

def c9S1 : GameSt := (animate c9S0 c9Inp1).1

def c9Inp2 : TickInput :=
  { videoTime := 1, detection := some c9P, freshFood := ⟨700, 700, "#ec4899"⟩ }

/-- C9 counterexample: after a tick whose live tracked point was `c9P`, a
tick with an unchanged frame timestamp does not keep `c9P` — its tip is
`none`.  The previous tip lies within `COLLISION_THRESHOLD` of the current
food, yet the tick eats nothing and invokes no observer: the logic treated
the point as absent rather than operating on the previous tick's point. -/
theorem stale_frame_counterexample :
    tickTip c9S0 c9Inp1 = some c9P ∧
    c9S1.food = some c9Food2 ∧
    c9Inp2.videoTime = c9S1.lastVideoTime ∧
    tickTip c9S1 c9Inp2 = none ∧
    checkFoodCollision c9P c9Food2 = true ∧
    (animate c9S1 c9Inp2).1.score = c9S1.score ∧
    (animate c9S1 c9Inp2).2 = [] := by
  norm_num [animate, tickTip, tickBody, tickPhase, tickHead, tickEats, updateSnake,
    checkSelfCollision, checkFoodCollision, getDistanceSq, foodPoint, targetLength,
    INITIAL_SNAKE_LENGTH, SEGMENT_GROWTH, MIN_SEGMENT_DISTANCE, SNAKE_RADIUS,
    SELF_COLLISION_GRACE_ZONES, COLLISION_THRESHOLD, c9S1, c9S0, c9Inp1, c9Inp2,
    c9P, c9Food1, c9Food2]

/-- C9 amended: when the frame timestamp is unchanged since the last tick,
detection is skipped and the tick's live tracked point is `none` (the
previous point is not kept): the trail is frozen, no `GameOver` transition
occurs, and the food check falls back to the trail head. -/
theorem stale_frame_amended (s : GameSt) (inp : TickInput)
    (hs : s.phase = GameState.playing) (hsame : inp.videoTime = s.lastVideoTime) :
    tickTip s inp = none ∧
    (animate s inp).1.snakeBody = s.snakeBody ∧
    (animate s inp).1.phase = s.phase ∧
    tickHead s inp = s.snakeBody.head? := by
  have ht : tickTip s inp = none := by simp [tickTip, hsame]
  have hbody : tickBody s inp = s.snakeBody := by simp [tickBody, ht]
  refine ⟨ht, ?_, ?_, ?_⟩
  · rw [animate_fst s inp hs]
    exact hbody
  · rw [animate_fst s inp hs]
    show tickPhase s inp = s.phase
    simp [tickPhase, ht]
  · simp [tickHead, ht, hbody]

/-- Fresh concrete state for the C9 amended witness. -/
def c9WS : GameSt :=
  { phase := GameState.playing, snakeBody := [⟨50, 50⟩], food := none,
    score := 2, lastVideoTime := 5 }

def c9WInp : TickInput :=
  { videoTime := 5, detection := some ⟨300, 300⟩, freshFood := ⟨600, 400, "#3b82f6"⟩ }

theorem stale_frame_amended_witness :
    tickTip c9WS c9WInp = none ∧
    (animate c9WS c9WInp).1.snakeBody = c9WS.snakeBody ∧
    (animate c9WS c9WInp).1.phase = c9WS.phase ∧
    tickHead c9WS c9WInp = c9WS.snakeBody.head? :=
  stale_frame_amended c9WS c9WInp rfl rfl

end ARSnake
